import Mathlib

/-!
Verification of the ingressgroup controller skeleton.

This file shallowly embeds the data model and the startup/watch logic of
the controller (main.go together with the vendored IngressGroup API types)
and proves the stated properties about them. Go struct fields keep their
Go names; JSON keys come from the struct tags. Cluster-side behaviour that
the program consumes but whose implementation is not part of this
repository (the apiextensions Create call, the informer factory resync
timer, client configuration fallback) is modelled from the specification
and marked as such on each definition.
-/

/-! ## The IngressGroup API types (vendored types.go) -/

/-- ServiceItem from types.go: a reference to a backend service.
Fields carry JSON tags "name" and "namespace" with no omitempty. -/
structure ServiceItem where
  Name : String
  Namespace : String
deriving DecidableEq

/-- IngressGroupSpec from types.go: the Services slice carries the JSON tag
"services,omitempty". -/
structure IngressGroupSpec where
  Services : List ServiceItem
deriving DecidableEq

/-- The embedded metav1.TypeMeta of an IngressGroup, restricted to its two
fields; both are strings tagged omitempty ("kind", "apiVersion"). -/
structure TypeMeta where
  Kind : String
  APIVersion : String
deriving DecidableEq

/-- The embedded metav1.ObjectMeta of an IngressGroup, restricted to the
identity fields this program reads (Name and Namespace, both strings tagged
omitempty). The full ObjectMeta has further optional fields that the
controller never touches. -/
structure ObjectMeta where
  Name : String
  Namespace : String
deriving DecidableEq

/-- IngressGroup from types.go: inline TypeMeta, ObjectMeta under the JSON
key "metadata", and a Spec under the JSON key "spec". Go field promotion of
the embedded ObjectMeta means the source writes g.Namespace and g.Name for
g.metadata.Namespace and g.metadata.Name. -/
structure IngressGroup where
  typeMeta : TypeMeta
  metadata : ObjectMeta
  Spec : IngressGroupSpec
deriving DecidableEq

/-! ## JSON wire shape, as fixed by the struct tags -/

/-- A JSON value, restricted to the shapes the IngressGroup wire format
uses. -/
inductive Json where
  | str (s : String)
  | arr (elems : List Json)
  | obj (fields : List (String × Json))

/-- Keys of a JSON object, in order; none when the value is not an object. -/
def Json.keys : Json → Option (List String)
  | .obj fs => some (fs.map (fun f => f.1))
  | _ => none

/-- Field lookup in a JSON object; none when absent or not an object. -/
def Json.lookup : Json → String → Option Json
  | .obj fs, k => (fs.find? (fun f => f.1 == k)).map (fun f => f.2)
  | _, _ => none

/-- Encoding of a ServiceItem per its tags: always exactly the keys "name"
and "namespace" (no omitempty on either field). -/
def ServiceItem.toJson (s : ServiceItem) : Json :=
  .obj [("name", .str s.Name), ("namespace", .str s.Namespace)]

/-- Encoding of an IngressGroupSpec per its tag "services,omitempty": the
key is dropped when the slice is empty. -/
def IngressGroupSpec.toJson (sp : IngressGroupSpec) : Json :=
  if sp.Services.isEmpty then .obj []
  else .obj [("services", .arr (sp.Services.map ServiceItem.toJson))]

/-- Inline encoding of TypeMeta: "kind" and "apiVersion", each dropped when
empty per omitempty. -/
def TypeMeta.toJsonFields (t : TypeMeta) : List (String × Json) :=
  (if t.Kind = "" then [] else [("kind", .str t.Kind)]) ++
    (if t.APIVersion = "" then [] else [("apiVersion", .str t.APIVersion)])

/-- Encoding of ObjectMeta restricted to the modelled fields, each dropped
when empty per omitempty. -/
def ObjectMeta.toJson (m : ObjectMeta) : Json :=
  .obj ((if m.Name = "" then [] else [("name", .str m.Name)]) ++
    (if m.Namespace = "" then [] else [("namespace", .str m.Namespace)]))

/-- Encoding of an IngressGroup: the inline TypeMeta fields, then
"metadata", then "spec". The tags on the metadata and spec struct fields
say omitempty, but encoding/json never treats a struct value as empty, so
both keys are always present. -/
def IngressGroup.toJson (g : IngressGroup) : Json :=
  .obj (g.typeMeta.toJsonFields ++
    [("metadata", g.metadata.toJson), ("spec", g.Spec.toJson)])

/-! ## Errors and the scheme group version -/

/-- Kubernetes API errors as the program distinguishes them:
errors.IsAlreadyExists singles out the AlreadyExists status reason; every
other error is opaque to the program. -/
inductive KubeError where
  | alreadyExists
  | other (msg : String)
deriving DecidableEq

/-- errors.IsAlreadyExists from apimachinery: true exactly on the
AlreadyExists status reason. -/
def KubeError.isAlreadyExists : KubeError → Bool
  | .alreadyExists => true
  | .other _ => false

/-- The message an error renders as when printed with the fmt verb v. -/
def KubeError.msg : KubeError → String
  | .alreadyExists => "AlreadyExists"
  | .other m => m

/-- schema.GroupVersion as used by the v1 package. -/
structure GroupVersion where
  Group : String
  Version : String
deriving DecidableEq

/-- SchemeGroupVersion from the v1 register file: group is the GroupName
constant of the ingressgroup package (that package is not among the
sources, so the group name stays a parameter), version is "v1". -/
def SchemeGroupVersion (GroupName : String) : GroupVersion :=
  { Group := GroupName, Version := "v1" }

/-! ## The CustomResourceDefinition built by CreateIngressGroupCRD -/

/-- v1beta1.CustomResourceDefinitionVersion, the fields the program sets. -/
structure CustomResourceDefinitionVersion where
  Name : String
  Served : Bool
  Storage : Bool
deriving DecidableEq

/-- v1beta1.ResourceScope. -/
inductive ResourceScope where
  | NamespaceScoped
  | ClusterScoped
deriving DecidableEq

/-- v1beta1.CustomResourceDefinitionNames, the fields the program sets. -/
structure CustomResourceDefinitionNames where
  Kind : String
  ListKind : String
  Plural : String
  Singular : String
  ShortNames : List String
  Categories : List String
deriving DecidableEq

/-- v1beta1.JSONSchemaProps, restricted to the fields the program sets:
Type, Required, Properties, and Items (the source only ever uses the
single-schema form of JSONSchemaPropsOrArray, so Items is one optional
schema). -/
inductive JSONSchemaProps where
  | mk (type_ : String) (required : List String)
      (properties : List (String × JSONSchemaProps))
      (items : Option JSONSchemaProps)

/-- The Type field of a schema node. -/
def JSONSchemaProps.type : JSONSchemaProps → String
  | .mk t _ _ _ => t

/-- The Required field of a schema node. -/
def JSONSchemaProps.required : JSONSchemaProps → List String
  | .mk _ r _ _ => r

/-- The Properties field of a schema node. -/
def JSONSchemaProps.properties : JSONSchemaProps → List (String × JSONSchemaProps)
  | .mk _ _ p _ => p

/-- The Items field of a schema node. -/
def JSONSchemaProps.items : JSONSchemaProps → Option JSONSchemaProps
  | .mk _ _ _ i => i

/-- Lookup of a named property of a schema node. -/
def JSONSchemaProps.prop (s : JSONSchemaProps) (k : String) : Option JSONSchemaProps :=
  (s.properties.find? (fun p => p.1 == k)).map (fun p => p.2)

/-- The schema of one services element, as built in CreateIngressGroupCRD:
an object with string properties name and namespace, both required. -/
def serviceItemSchema : JSONSchemaProps :=
  .mk "object" ["name", "namespace"]
    [("name", .mk "string" [] [] none), ("namespace", .mk "string" [] [] none)]
    none

/-- The schema of spec.services: an array whose items follow
serviceItemSchema. -/
def servicesSchema : JSONSchemaProps :=
  .mk "array" [] [] (some serviceItemSchema)

/-- The schema of spec: one property, services. -/
def ingressGroupSpecSchema : JSONSchemaProps :=
  .mk "" [] [("services", servicesSchema)] none

/-- The OpenAPIV3Schema root the program publishes: one property, spec. -/
def openAPIV3Schema : JSONSchemaProps :=
  .mk "" [] [("spec", ingressGroupSpecSchema)] none

/-- Modelled from the spec: admission-time checking of the required-field
list of an object schema node against the set of keys present in a
candidate payload (the OpenAPI validator itself is not part of this
repository); a payload passes only when every required key is present. -/
def requiredOK (s : JSONSchemaProps) (presentKeys : List String) : Bool :=
  s.required.all (fun r => presentKeys.contains r)

/-- v1beta1.CustomResourceDefinitionSpec, the fields the program sets. -/
structure CustomResourceDefinitionSpec where
  Group : String
  Versions : List CustomResourceDefinitionVersion
  Scope : ResourceScope
  Names : CustomResourceDefinitionNames
  Validation : JSONSchemaProps

/-- v1beta1.CustomResourceDefinition: ObjectMeta.Name plus the spec. -/
structure CustomResourceDefinition where
  Name : String
  Spec : CustomResourceDefinitionSpec

/-- The CRD value CreateIngressGroupCRD constructs, line for line from
main.go; parametric in the GroupName constant of the ingressgroup package
(not among the sources). -/
def ingressGroupCRD (GroupName : String) : CustomResourceDefinition :=
  { Name := "ingressgroups." ++ (SchemeGroupVersion GroupName).Group
    Spec :=
      { Group := (SchemeGroupVersion GroupName).Group
        Versions :=
          [{ Name := (SchemeGroupVersion GroupName).Version
             Served := true
             Storage := true }]
        Scope := .NamespaceScoped
        Names :=
          { Kind := "IngressGroup"
            ListKind := "IngressGroupList"
            Plural := "ingressgroups"
            Singular := "ingressgroup"
            ShortNames := ["ig"]
            Categories := ["all"] }
        Validation := openAPIV3Schema } }

/-- Modelled from the spec: the cluster-side CreateSchema operation of the
Cluster API boundary (the apiextensions client and API server are not part
of this repository). The cluster keeps one definition per name: creating a
definition whose name is already present returns AlreadyExists and leaves
the stored set unchanged; otherwise the definition is appended. -/
def createCRDInCluster (st : List CustomResourceDefinition)
    (crd : CustomResourceDefinition) :
    List CustomResourceDefinition × Option KubeError :=
  if st.any (fun c => c.Name == crd.Name) then (st, some .alreadyExists)
  else (st ++ [crd], none)

/-- CreateIngressGroupCRD from main.go: build the CRD value and submit it
to the cluster Create call, returning the new cluster state and the error
result. -/
def CreateIngressGroupCRD (st : List CustomResourceDefinition)
    (GroupName : String) :
    List CustomResourceDefinition × Option KubeError :=
  createCRDInCluster st (ingressGroupCRD GroupName)

/-! ## Process configuration -/

/-- OperatorManagerServer from main.go. -/
structure OperatorManagerServer where
  Master : String
  Kubeconfig : String
deriving DecidableEq

/-- NewOMServer from main.go: a zero-value struct, so both string fields
start out empty. -/
def NewOMServer : OperatorManagerServer :=
  { Master := "", Kubeconfig := "" }

/-- One flag registration: the flag name and the default value passed to
flag.StringVar. -/
structure FlagDef where
  name : String
  defaultValue : String
deriving DecidableEq

/-- The flag registrations the main function performs, in order, on a given
server struct: flag.StringVar is called for "master" and "kubeconfig", each
with the current (zero-value) field as its default. -/
def mainFlags (s : OperatorManagerServer) : List FlagDef :=
  [{ name := "master", defaultValue := s.Master },
   { name := "kubeconfig", defaultValue := s.Kubeconfig }]

/-- Where the client configuration comes from. -/
inductive ConfigSource where
  | ambient
  | fromFlags (master kubeconfigPath : String)
deriving DecidableEq

/-- Modelled from the spec: clientcmd.BuildConfigFromFlags (client-go, not
part of this repository) — both parameters are optional and an empty pair
falls back to ambient environment discovery; otherwise the supplied
endpoint override and credential-file path are used. -/
def BuildConfigFromFlags (master kubeconfigPath : String) : ConfigSource :=
  if master == "" && kubeconfigPath == "" then .ambient
  else .fromFlags master kubeconfigPath

/-- The configuration source createClients resolves, from main.go: it calls
BuildConfigFromFlags with the Master and Kubeconfig fields. -/
def createClientsConfig (s : OperatorManagerServer) : ConfigSource :=
  BuildConfigFromFlags s.Master s.Kubeconfig

/-! ## Event handlers -/

/-- A dynamically typed event payload, as handed to the handlers through
the untyped interface argument: either an IngressGroup pointer or a value
of some other dynamic type (such as a cache.DeletedFinalStateUnknown
tombstone). -/
inductive Payload where
  | ig (g : IngressGroup)
  | other (desc : String)
deriving DecidableEq

/-- Whether the dynamic type of a payload is the IngressGroup pointer
type. -/
def Payload.isIngressGroup : Payload → Bool
  | .ig _ => true
  | .other _ => false

/-- A Go runtime fault a handler can hit: a failed unchecked type
assertion, or a field read through a nil pointer. -/
inductive GoPanic where
  | typeAssertion
  | nilDereference
deriving DecidableEq

/-- A klog warning line, recorded as the list of formatting arguments. -/
inductive LogLine where
  | warning (args : List String)
deriving DecidableEq

/-- The AddFunc closure from Run: an unchecked assertion to the
IngressGroup pointer type (faulting on any other payload), then a warning
log of namespace and name. -/
def addFuncModel : Payload → Except GoPanic LogLine
  | .ig g => .ok (.warning [g.metadata.Namespace, g.metadata.Name])
  | .other _ => .error .typeAssertion

/-- The DeleteFunc closure from Run: a checked assertion whose failure is
discarded, leaving a nil pointer whose Namespace field is then read — so a
payload of any other type faults with a nil dereference. -/
def deleteFuncModel : Payload → Except GoPanic LogLine
  | .ig g => .ok (.warning [g.metadata.Namespace, g.metadata.Name])
  | .other _ => .error .nilDereference

/-- The UpdateFunc closure from Run: unchecked assertions on the old then
the current payload, then a warning log naming both snapshots. -/
def updateFuncModel : Payload → Payload → Except GoPanic LogLine
  | .ig o, .ig c =>
      .ok (.warning [o.metadata.Namespace, o.metadata.Name,
        c.metadata.Namespace, c.metadata.Name])
  | .other _, _ => .error .typeAssertion
  | .ig _, .other _ => .error .typeAssertion

/-- cache.ResourceEventHandlerFuncs: the three callbacks, with Update
taking the prior and current payloads and Add and Delete one payload
each. -/
structure ResourceEventHandlerFuncs where
  AddFunc : Payload → Except GoPanic LogLine
  DeleteFunc : Payload → Except GoPanic LogLine
  UpdateFunc : Payload → Payload → Except GoPanic LogLine

/-- The handler set Run builds (ingGroupEventHandler in main.go). -/
def ingGroupEventHandler : ResourceEventHandlerFuncs :=
  { AddFunc := addFuncModel
    DeleteFunc := deleteFuncModel
    UpdateFunc := updateFuncModel }

/-- The handlers Run registers on the IngressGroup informer: exactly the
one AddEventHandler call with ingGroupEventHandler. -/
def runRegisteredHandlers : List ResourceEventHandlerFuncs :=
  [ingGroupEventHandler]

/-! ## Startup control flow of Run and main -/

/-- How Run ends: returning an error to main, aborting the process through
klog.Fatal, or blocking forever on the stop channel. -/
inductive RunOutcome where
  | err (e : KubeError)
  | fatal (e : KubeError)
  | blocks
deriving DecidableEq

/-- What a call to Run produces: its outcome, the writes it itself made to
stderr, and the info log lines it emitted. -/
structure RunResult where
  outcome : RunOutcome
  stderrOut : List String
  infoLogs : List String
deriving DecidableEq

/-- The tail of Run after the CRD step: build the versioned client
(klog.Fatal on error), start the informers and block on the stop channel.
The info lines already emitted are threaded through. -/
def RunAfterCRD (logs : List String) (versionedClientErr : Option KubeError) :
    RunResult :=
  match versionedClientErr with
  | some e => { outcome := .fatal e, stderrOut := [], infoLogs := logs }
  | none => { outcome := .blocks, stderrOut := [], infoLogs := logs }

/-- Run from main.go, as a function of the outcomes of its three fallible
steps: createClients, CreateIngressGroupCRD and igclient.NewForConfig. A
client error is returned as is; a CRD AlreadyExists error is logged and
execution proceeds; any other CRD error is printed to stderr and returned;
otherwise Run reaches the informer start and blocks. -/
def Run (clientsErr crdErr versionedClientErr : Option KubeError) : RunResult :=
  match clientsErr with
  | some e => { outcome := .err e, stderrOut := [], infoLogs := [] }
  | none =>
    match crdErr with
    | some e =>
      if e.isAlreadyExists then
        RunAfterCRD ["redis cluster crd is already created."] versionedClientErr
      else
        { outcome := .err e, stderrOut := [e.msg], infoLogs := [] }
    | none => RunAfterCRD [] versionedClientErr

/-- How the process ends, seen from outside. -/
inductive ProcessExit where
  | exitCode (code : Nat) (stderrOut : List String)
  | runsForever
deriving DecidableEq

/-- The main function from main.go around Run: when Run returns an error it
is printed to stderr with a trailing newline and the process exits with
status 1; klog.Fatal inside Run exits with status 255 after logging to
stderr; when Run blocks the process runs until terminated externally. -/
def mainModel (clientsErr crdErr versionedClientErr : Option KubeError) :
    ProcessExit :=
  let r := Run clientsErr crdErr versionedClientErr
  match r.outcome with
  | .err e => .exitCode 1 (r.stderrOut ++ [e.msg ++ "\n"])
  | .fatal e => .exitCode 255 (r.stderrOut ++ [e.msg])
  | .blocks => .runsForever

/-! ## The blocking receive on the stop channel -/

/-- The Done signal of the context Run uses, as a timeline of booleans:
context.TODO() carries no cancellation, so its Done channel never fires. -/
def ctxTODO_done : Nat → Bool := fun _ => false

/-- Where the tail of Run is at a given step: still parked on the channel
receive, or past it at the final return statement. -/
inductive RunPhase where
  | blocked
  | returned
deriving DecidableEq

/-- The receive on stopCh at the end of Run, stepped against a cancellation
timeline: the receive completes, reaching the final return, exactly when
the done signal fires. -/
def runTail (done : Nat → Bool) : Nat → RunPhase
  | 0 => .blocked
  | n + 1 =>
    match runTail done n, done n with
    | .returned, _ => .returned
    | .blocked, true => .returned
    | .blocked, false => .blocked

/-! ## The informer factory resync period -/

/-- The resync period Run passes to NewSharedInformerFactory, in
nanoseconds: time.Duration(0) multiplied by time.Second. -/
def suppliedResyncPeriod : Nat := 0 * 1000000000

/-- Modelled from the spec: whether the shared informer factory performs
periodic resync for a given resync period (the factory is client-go code,
not part of this repository) — the period is configurable and a zero
duration disables periodic resync, leaving only live watch events. -/
def periodicResyncEnabled (resyncPeriod : Nat) : Bool :=
  resyncPeriod != 0

/-- Whether running a handler body ends in a Go runtime fault rather than a
log line. -/
def faults : Except GoPanic LogLine → Bool
  | .error _ => true
  | .ok _ => false

/-! ## Sample values for concrete witnesses -/

/-- A concrete service binding. -/
def sampleServiceItem : ServiceItem :=
  { Name := "svc1", Namespace := "default" }

/-- A concrete IngressGroup with one service binding. -/
def sampleIngressGroup : IngressGroup :=
  { typeMeta := { Kind := "IngressGroup", APIVersion := "v1" }
    metadata := { Name := "g1", Namespace := "default" }
    Spec := { Services := [sampleServiceItem] } }

/-! ## Theorems -/

/-- C1: if schema registration returns an AlreadyExists error, startup
treats it as success — the condition is logged and the controller proceeds
to block in steady state; if schema registration returns any other error,
Run returns that error and the process terminates with exit status 1 after
reporting the error to stderr. -/
theorem C1_schema_registration_error_handling :
    (∀ vc : Option KubeError,
      "redis cluster crd is already created." ∈
        (Run none (some KubeError.alreadyExists) vc).infoLogs) ∧
    (Run none (some KubeError.alreadyExists) none).outcome = RunOutcome.blocks ∧
    (∀ (m : String) (vc : Option KubeError),
      Run none (some (KubeError.other m)) vc =
        { outcome := RunOutcome.err (KubeError.other m)
          stderrOut := [m], infoLogs := [] }) ∧
    (∀ (m : String) (vc : Option KubeError),
      mainModel none (some (KubeError.other m)) vc =
        ProcessExit.exitCode 1 [m, m ++ "\n"]) := by
  refine ⟨?_, rfl, ?_, ?_⟩
  · intro vc
    cases vc <;> simp [Run, RunAfterCRD, KubeError.isAlreadyExists]
  · intro m vc
    rfl
  · intro m vc
    rfl

/-- C2: the periodic resync of the List-Watch Client runs on a configurable
timer, a zero duration disabling it; the period Run supplies when building
the informer factory is zero nanoseconds, so this program gets no periodic
resync, while any nonzero period would enable it. -/
theorem C2_resync_period_zero_disables :
    suppliedResyncPeriod = 0 ∧
    periodicResyncEnabled suppliedResyncPeriod = false ∧
    (∀ d : Nat, d ≠ 0 → periodicResyncEnabled d = true) := by
  refine ⟨rfl, rfl, ?_⟩
  intro d hd
  simp [periodicResyncEnabled, hd]

/-- Witness for C2 at the concrete nonzero period 7. -/
theorem C2_resync_period_zero_disables_witness :
    periodicResyncEnabled 7 = true :=
  C2_resync_period_zero_disables.2.2 7 (by decide)

/-- C3: schema registration is idempotent — CreateIngressGroupCRD submits
the one fixed CRD value ingressGroupCRD on every invocation, and from any
cluster state a second registration of that value returns AlreadyExists
and leaves the stored set exactly as the first registration left it, so no
duplicate schema is stored. -/
theorem C3_registration_idempotent :
    ∀ (st : List CustomResourceDefinition) (G : String),
      CreateIngressGroupCRD st G = createCRDInCluster st (ingressGroupCRD G) ∧
      createCRDInCluster (CreateIngressGroupCRD st G).1 (ingressGroupCRD G) =
        ((CreateIngressGroupCRD st G).1, some KubeError.alreadyExists) := by
  intro st G
  refine ⟨rfl, ?_⟩
  by_cases h : st.any (fun c => c.Name == (ingressGroupCRD G).Name)
  · simp [CreateIngressGroupCRD, createCRDInCluster, h]
  · simp [CreateIngressGroupCRD, createCRDInCluster, h, List.any_append]

/-- C4: the schema definition submitted at registration carries the
group/version identity from SchemeGroupVersion with version "v1" served and
stored, kind names IngressGroup and IngressGroupList, plural
"ingressgroups", singular "ingressgroup", short alias "ig", and namespaced
scope; its metadata name is "ingressgroups." followed by the group. -/
theorem C4_crd_identity :
    ∀ G : String,
      (ingressGroupCRD G).Name = "ingressgroups." ++ G ∧
      (ingressGroupCRD G).Spec.Group = (SchemeGroupVersion G).Group ∧
      (SchemeGroupVersion G).Version = "v1" ∧
      (ingressGroupCRD G).Spec.Versions =
        [{ Name := (SchemeGroupVersion G).Version, Served := true, Storage := true }] ∧
      (ingressGroupCRD G).Spec.Names.Kind = "IngressGroup" ∧
      (ingressGroupCRD G).Spec.Names.ListKind = "IngressGroupList" ∧
      (ingressGroupCRD G).Spec.Names.Plural = "ingressgroups" ∧
      (ingressGroupCRD G).Spec.Names.Singular = "ingressgroup" ∧
      (ingressGroupCRD G).Spec.Names.ShortNames = ["ig"] ∧
      (ingressGroupCRD G).Spec.Scope = ResourceScope.NamespaceScoped := by
  intro G
  exact ⟨rfl, rfl, rfl, rfl, rfl, rfl, rfl, rfl, rfl, rfl⟩

/-- C7: process configuration is exactly two optional string parameters,
"master" and "kubeconfig", both defaulting to the empty string, and with
those defaults createClients falls back to ambient environment discovery
through BuildConfigFromFlags. -/
theorem C7_process_configuration :
    mainFlags NewOMServer =
      [{ name := "master", defaultValue := "" },
       { name := "kubeconfig", defaultValue := "" }] ∧
    (mainFlags NewOMServer).length = 2 ∧
    createClientsConfig NewOMServer = ConfigSource.ambient := by
  exact ⟨rfl, rfl, rfl⟩

/-- C8: Run registers exactly the one handler set ingGroupEventHandler on
the IngressGroup informer; its Update callback receives both the prior and
the current snapshots and logs the identities of both, while the Add and
Delete callbacks each receive a single snapshot and log its identity. -/
theorem C8_handler_snapshots :
    runRegisteredHandlers = [ingGroupEventHandler] ∧
    (∀ old cur : IngressGroup,
      ingGroupEventHandler.UpdateFunc (Payload.ig old) (Payload.ig cur) =
        Except.ok (LogLine.warning
          [old.metadata.Namespace, old.metadata.Name,
           cur.metadata.Namespace, cur.metadata.Name])) ∧
    (∀ g : IngressGroup,
      ingGroupEventHandler.AddFunc (Payload.ig g) =
        Except.ok (LogLine.warning [g.metadata.Namespace, g.metadata.Name])) ∧
    (∀ g : IngressGroup,
      ingGroupEventHandler.DeleteFunc (Payload.ig g) =
        Except.ok (LogLine.warning [g.metadata.Namespace, g.metadata.Name])) := by
  exact ⟨rfl, fun _ _ => rfl, fun _ => rfl, fun _ => rfl⟩

/-- C5: the structural validation rules published with the schema declare
spec.services as an array whose items are objects with string properties
name and namespace, both listed as required, so a candidate services
element passes the required-field check exactly when both keys are
present — a ServiceItem payload missing either key fails validation at
admission time. -/
theorem C5_validation_rules :
    (∀ G : String, (ingressGroupCRD G).Spec.Validation = openAPIV3Schema) ∧
    openAPIV3Schema.prop "spec" = some ingressGroupSpecSchema ∧
    ingressGroupSpecSchema.prop "services" = some servicesSchema ∧
    servicesSchema.type = "array" ∧
    servicesSchema.items = some serviceItemSchema ∧
    serviceItemSchema.type = "object" ∧
    (serviceItemSchema.prop "name").map JSONSchemaProps.type = some "string" ∧
    (serviceItemSchema.prop "namespace").map JSONSchemaProps.type = some "string" ∧
    serviceItemSchema.required = ["name", "namespace"] ∧
    (∀ keys : List String,
      requiredOK serviceItemSchema keys = true ↔
        ("name" ∈ keys ∧ "namespace" ∈ keys)) := by
  refine ⟨fun G => rfl, rfl, rfl, rfl, rfl, rfl, rfl, rfl, rfl, ?_⟩
  intro keys
  simp [requiredOK, serviceItemSchema, JSONSchemaProps.required, List.contains,
    List.elem_iff]

/-- Witness for C5 at the concrete key set containing only "name": the
required-field check rejects it because "namespace" is absent. -/
theorem C5_validation_rules_witness :
    requiredOK serviceItemSchema ["name"] = true ↔
      ("name" ∈ ["name"] ∧ "namespace" ∈ ["name"]) :=
  C5_validation_rules.2.2.2.2.2.2.2.2.2 ["name"]

/-- Searching the inline TypeMeta fields for any key other than "kind" and
"apiVersion" falls through to the remaining fields. -/
theorem find?_typeMetaFields_skip (t : TypeMeta) (rest : List (String × Json))
    (k : String) (h1 : ("kind" == k) = false) (h2 : ("apiVersion" == k) = false) :
    List.find? (fun f => f.1 == k) (t.toJsonFields ++ rest) =
      List.find? (fun f => f.1 == k) rest := by
  unfold TypeMeta.toJsonFields
  by_cases hk : t.Kind = "" <;> by_cases ha : t.APIVersion = "" <;>
    simp [hk, ha, List.find?_append, List.find?, h1, h2]

/-- C6: an IngressGroup serializes as an object with the standard type and
object metadata fields plus a spec whose "services" key is an array of
objects each having exactly the keys "name" and "namespace", as fixed by
the JSON tags on IngressGroup, IngressGroupSpec, and ServiceItem. -/
theorem C6_wire_shape :
    ∀ g : IngressGroup,
      (IngressGroup.toJson g).lookup "metadata" = some g.metadata.toJson ∧
      (IngressGroup.toJson g).lookup "spec" = some g.Spec.toJson ∧
      (∀ s : ServiceItem,
        (ServiceItem.toJson s).keys = some ["name", "namespace"]) ∧
      (g.Spec.Services ≠ [] →
        g.Spec.toJson =
          Json.obj [("services",
            Json.arr (g.Spec.Services.map ServiceItem.toJson))]) := by
  intro g
  refine ⟨?_, ?_, fun s => rfl, ?_⟩
  · simp only [IngressGroup.toJson, Json.lookup]
    rw [find?_typeMetaFields_skip _ _ _ (by decide) (by decide)]
    simp [List.find?]
  · simp only [IngressGroup.toJson, Json.lookup]
    rw [find?_typeMetaFields_skip _ _ _ (by decide) (by decide)]
    simp [List.find?]
  · intro hne
    unfold IngressGroupSpec.toJson
    simp [List.isEmpty_iff, hne]

/-- Witness for C6 at a concrete IngressGroup with one service binding. -/
theorem C6_wire_shape_witness :
    (IngressGroup.toJson sampleIngressGroup).lookup "spec" =
      some sampleIngressGroup.Spec.toJson ∧
    sampleIngressGroup.Spec.toJson =
      Json.obj [("services",
        Json.arr (sampleIngressGroup.Spec.Services.map ServiceItem.toJson))] :=
  ⟨(C6_wire_shape sampleIngressGroup).2.1,
   (C6_wire_shape sampleIngressGroup).2.2.2 (by decide)⟩

/-- C9: Run blocks receiving on the stop channel of its context and the
receive completes only when the cancellation signal has fired; with the
never-cancelled context.TODO() the receive never completes, so the final
return statement of Run is unreachable and after a clean startup the
process runs until terminated externally. -/
theorem C9_runs_until_cancelled :
    (∀ (done : Nat → Bool) (n : Nat),
      runTail done n = RunPhase.returned → ∃ k, k < n ∧ done k = true) ∧
    (∀ n : Nat, runTail ctxTODO_done n = RunPhase.blocked) := by
  constructor
  · intro done n
    induction n with
    | zero => intro h; exact absurd h (by simp [runTail])
    | succ n ih =>
      intro h
      rw [runTail] at h
      cases hr : runTail done n with
      | returned =>
        obtain ⟨k, hk, hd⟩ := ih hr
        exact ⟨k, Nat.lt_succ_of_lt hk, hd⟩
      | blocked =>
        rw [hr] at h
        cases hd : done n with
        | true => exact ⟨n, Nat.lt_succ_self n, hd⟩
        | false => rw [hd] at h; exact absurd h (by simp)
  · intro n
    induction n with
    | zero => rfl
    | succ n ih => simp [runTail, ih, ctxTODO_done]

/-- Witness for C9: on a timeline whose signal fires immediately, the
receive completing after one step exhibits a fired signal before it. -/
theorem C9_runs_until_cancelled_witness :
    ∃ k, k < 1 ∧ (fun _ : Nat => true) k = true :=
  C9_runs_until_cancelled.1 (fun _ => true) 1 rfl

/-- C10: for every event payload whose dynamic type is not the IngressGroup
pointer type, the registered handlers fault: the Add callback and the
Update callback (with the foreign payload in either position) fail their
unchecked type assertions, and the Delete callback dereferences the nil
result of its checked assertion. -/
theorem C10_handlers_fault_on_foreign_payloads :
    ∀ p : Payload, p.isIngressGroup = false →
      ingGroupEventHandler.AddFunc p = Except.error GoPanic.typeAssertion ∧
      ingGroupEventHandler.DeleteFunc p = Except.error GoPanic.nilDereference ∧
      (∀ q : Payload,
        faults (ingGroupEventHandler.UpdateFunc p q) = true ∧
        faults (ingGroupEventHandler.UpdateFunc q p) = true) := by
  intro p hp
  cases p with
  | ig g => simp [Payload.isIngressGroup] at hp
  | other d =>
    refine ⟨rfl, rfl, fun q => ⟨?_, ?_⟩⟩
    · cases q <;> rfl
    · cases q <;> rfl

/-- Witness for C10 at a tombstone payload paired with a concrete
IngressGroup. -/
theorem C10_handlers_fault_witness :
    ingGroupEventHandler.AddFunc (Payload.other "tombstone") =
      Except.error GoPanic.typeAssertion ∧
    ingGroupEventHandler.DeleteFunc (Payload.other "tombstone") =
      Except.error GoPanic.nilDereference ∧
    (faults (ingGroupEventHandler.UpdateFunc (Payload.other "tombstone")
        (Payload.ig sampleIngressGroup)) = true ∧
     faults (ingGroupEventHandler.UpdateFunc (Payload.ig sampleIngressGroup)
        (Payload.other "tombstone")) = true) :=
  ⟨(C10_handlers_fault_on_foreign_payloads (Payload.other "tombstone") rfl).1,
   (C10_handlers_fault_on_foreign_payloads (Payload.other "tombstone") rfl).2.1,
   (C10_handlers_fault_on_foreign_payloads (Payload.other "tombstone") rfl).2.2
     (Payload.ig sampleIngressGroup)⟩
